import Mathlib

/-!
Verification of the client-side auth/session subsystem and the
localStorage helper of the IOLTA Manager application.

The embedding models:
  - the auth data model (User, Session, SessionRef, Organization, Member)
    from src/types and src/lib/auth/local-auth.ts;
  - the Dexie-backed record store as lists of rows, with get-by-primary-key
    and where(...).equals(...) queries modelled as List.find? / List.filter;
  - time as milliseconds since the epoch (a Nat), with the JS comparison
    new Date(a) < new Date(b) becoming a < b on timestamps;
  - the browser environment flag (isBrowser) as a field of the state;
  - nondeterministic inputs of the code (crypto.randomUUID, generateToken,
    the SHA-256 password digest) as explicit parameters.

Every operation returns its result together with the post-state, so that
frame conditions (what an operation does not touch) are provable.
-/

namespace IoltaAuth

/-- User row, from the iolta types: id, email (stored lower-cased), name,
passwordHash, createdAt, updatedAt (dates as epoch milliseconds). -/
structure User where
  id : String
  email : String
  name : String
  passwordHash : String
  createdAt : Nat
  updatedAt : Nat
deriving DecidableEq

/-- Session row: id, userId, token, expiresAt, createdAt. -/
structure Session where
  id : String
  userId : String
  token : String
  expiresAt : Nat
  createdAt : Nat
deriving DecidableEq

/-- SessionRef, the compact reference stored in localStorage:
sessionId, token, optional activeOrgId. -/
structure SessionRef where
  sessionId : String
  token : String
  activeOrgId : Option String
deriving DecidableEq

/-- Organization row: id, name, slug, optional logo, createdAt. -/
structure Organization where
  id : String
  name : String
  slug : String
  logo : Option String
  createdAt : Nat
deriving DecidableEq

/-- Member row (org membership join entity). -/
structure Member where
  id : String
  userId : String
  organizationId : String
  role : String
  createdAt : Nat
deriving DecidableEq

/-- The IOLTADatabase auth tables, plus one opaque component standing for
all non-auth tables (clients, matters, transactions, holds, auditLogs,
reportHistory, trustAccountSettings), which no auth operation reads or
writes. -/
structure DB where
  users : List User
  sessions : List Session
  organizations : List Organization
  members : List Member
  appData : List (String × String)
deriving DecidableEq

/-- Full client-side state seen by the auth module: the environment flag
(isBrowser), the database, the localStorage SessionRef, and the auth
cookie (modelled by the token value it carries, none when cleared). -/
structure AuthState where
  isBrowser : Bool
  db : DB
  sessionRef : Option SessionRef
  cookie : Option String
deriving DecidableEq

/-- Embedding of the JS String.prototype.toLowerCase used to normalize
emails: per-character lowercasing. (Stated over the character list so
that the kernel can evaluate it on literals; extensionally this is the
same map as the builtin toLower.) -/
def toLowerStr (s : String) : String :=
  String.mk (s.data.map Char.toLower)

/-- Dexie db.sessions.get(id): lookup by primary key. -/
def sessionsGet (db : DB) (id : String) : Option Session :=
  db.sessions.find? fun s => s.id == id

/-- Dexie db.users.get(id): lookup by primary key. -/
def usersGet (db : DB) (id : String) : Option User :=
  db.users.find? fun u => u.id == id

/-- Dexie db.users.where(email).equals(e).first(). -/
def firstUserByEmail (db : DB) (e : String) : Option User :=
  db.users.find? fun u => u.email == e

/-- Dexie db.organizations.get(id). -/
def orgsGet (db : DB) (id : String) : Option Organization :=
  db.organizations.find? fun o => o.id == id

/-- Dexie db.organizations.where(slug).equals(s).first(). -/
def firstOrgBySlug (db : DB) (s : String) : Option Organization :=
  db.organizations.find? fun o => o.slug == s

/-- Dexie db.sessions.delete(id): remove the row with that primary key. -/
def deleteSessionRow (st : AuthState) (id : String) : AuthState :=
  { st with db := { st.db with sessions := st.db.sessions.filter fun s => !(s.id == id) } }

/-- The clearSessionRef helper: removeFromLocalStorage of the session key
plus clearAuthCookie. -/
def clearRefState (st : AuthState) : AuthState :=
  { st with sessionRef := none, cookie := none }

/-- The setSessionRef helper: saveToLocalStorage of the reference plus
setAuthCookie carrying the token. -/
def setRefState (st : AuthState) (ref : SessionRef) : AuthState :=
  { st with sessionRef := some ref, cookie := some ref.token }

/-- The setAuthCookie refresh performed by a successful getSession. -/
def setCookieState (st : AuthState) (token : String) : AuthState :=
  { st with cookie := some token }

/-- SessionData.user type: the user record with the passwordHash field
stripped, as returned by getSession. -/
structure SafeUser where
  id : String
  email : String
  name : String
  createdAt : Nat
  updatedAt : Nat
deriving DecidableEq

/-- The destructuring `const \x7b passwordHash: _, ...safeUser \x7d = user`. -/
def stripHash (u : User) : SafeUser :=
  { id := u.id, email := u.email, name := u.name
    createdAt := u.createdAt, updatedAt := u.updatedAt }

/-- Result of a successful getSession. -/
structure SessionData where
  user : SafeUser
  session : Session
deriving DecidableEq

/-- getSession from src/lib/auth/local-auth.ts: the self-healing read.
Returns null outside the browser; reads the SessionRef; on each failing
check clears the reference (and for expiry or a missing user also deletes
the Session row); on success refreshes the cookie and returns the user
without passwordHash. -/
def getSession (st : AuthState) (now : Nat) : Option SessionData × AuthState :=
  if !st.isBrowser then (none, st)
  else
    match st.sessionRef with
    | none => (none, st)
    | some ref =>
      match sessionsGet st.db ref.sessionId with
      | none => (none, clearRefState st)
      | some s =>
        if s.token ≠ ref.token then (none, clearRefState st)
        else if s.expiresAt < now then (none, clearRefState (deleteSessionRow st s.id))
        else
          match usersGet st.db s.userId with
          | none => (none, clearRefState (deleteSessionRow st s.id))
          | some u => (some ⟨stripHash u, s⟩, setCookieState st s.token)

/-- Input to signUpEmail. -/
structure SignUpData where
  email : String
  password : String
  name : String
deriving DecidableEq

/-- Input to signInEmail. -/
structure SignInData where
  email : String
  password : String
deriving DecidableEq

/-- Result of signUpEmail / signInEmail: the FULL user row (passwordHash
included) together with the created session. -/
structure SignUpResult where
  user : User
  session : Session
deriving DecidableEq

/-- signUpEmail. The password digest (hashFn), the generated UUIDs
(userId, sessId) and the random token are explicit parameters; now is the
current time in ms. A thrown error is modelled as Except.error carrying
the message, paired with the state at the throw point. -/
def signUpEmail (hashFn : String → String) (st : AuthState) (now : Nat)
    (userId sessId token : String) (data : SignUpData) :
    Except String SignUpResult × AuthState :=
  if !st.isBrowser then (Except.error "Auth operations require browser", st)
  else
    match firstUserByEmail st.db (toLowerStr data.email) with
    | some _ => (Except.error "Email already registered", st)
    | none =>
      let user : User :=
        { id := userId, email := toLowerStr data.email, name := data.name
          passwordHash := hashFn data.password, createdAt := now, updatedAt := now }
      let session : Session :=
        { id := sessId, userId := userId, token := token
          expiresAt := now + 7 * 24 * 60 * 60 * 1000, createdAt := now }
      let st1 : AuthState := { st with db := { st.db with users := st.db.users ++ [user] } }
      let st2 : AuthState := { st1 with db := { st1.db with sessions := st1.db.sessions ++ [session] } }
      (Except.ok ⟨user, session⟩, setRefState st2 ⟨sessId, token, none⟩)

/-- signInEmail: look up the user by lower-cased email, compare digests,
create a new session on success. Same parameter conventions as
signUpEmail. -/
def signInEmail (hashFn : String → String) (st : AuthState) (now : Nat)
    (sessId token : String) (data : SignInData) :
    Except String SignUpResult × AuthState :=
  if !st.isBrowser then (Except.error "Auth operations require browser", st)
  else
    match firstUserByEmail st.db (toLowerStr data.email) with
    | none => (Except.error "Invalid email or password", st)
    | some user =>
      if hashFn data.password ≠ user.passwordHash then
        (Except.error "Invalid email or password", st)
      else
        let session : Session :=
          { id := sessId, userId := user.id, token := token
            expiresAt := now + 7 * 24 * 60 * 60 * 1000, createdAt := now }
        let st1 : AuthState := { st with db := { st.db with sessions := st.db.sessions ++ [session] } }
        (Except.ok ⟨user, session⟩, setRefState st1 ⟨sessId, token, none⟩)

/-- Input to createOrganization. -/
structure CreateOrgData where
  name : String
  slug : String
  logo : Option String
deriving DecidableEq

/-- createOrganization: reject a taken slug, create the org and an owner
membership, and set the new org active in the SessionRef when one
exists. -/
def createOrganization (st : AuthState) (now : Nat) (orgId memberId : String)
    (data : CreateOrgData) (userId : String) :
    Except String Organization × AuthState :=
  if !st.isBrowser then (Except.error "Auth operations require browser", st)
  else
    match firstOrgBySlug st.db data.slug with
    | some _ => (Except.error "Organization slug already taken", st)
    | none =>
      let org : Organization :=
        { id := orgId, name := data.name, slug := data.slug
          logo := data.logo, createdAt := now }
      let member : Member :=
        { id := memberId, userId := userId, organizationId := org.id
          role := "owner", createdAt := now }
      let st1 : AuthState := { st with db := { st.db with organizations := st.db.organizations ++ [org] } }
      let st2 : AuthState := { st1 with db := { st1.db with members := st1.db.members ++ [member] } }
      let st3 : AuthState :=
        match st2.sessionRef with
        | some ref => setRefState st2 { ref with activeOrgId := some org.id }
        | none => st2
      (Except.ok org, st3)

/-- getOrganizations: memberships of the user, mapped to their orgs,
skipping dangling org ids. -/
def getOrganizations (st : AuthState) (userId : String) :
    List Organization × AuthState :=
  if !st.isBrowser then ([], st)
  else
    let memberships := st.db.members.filter fun m => m.userId == userId
    let orgIds := memberships.map fun m => m.organizationId
    (orgIds.filterMap fun i => orgsGet st.db i, st)

/-- getActiveOrganization: follow the activeOrgId of the SessionRef. -/
def getActiveOrganization (st : AuthState) : Option Organization × AuthState :=
  if !st.isBrowser then (none, st)
  else
    match st.sessionRef with
    | none => (none, st)
    | some ref =>
      match ref.activeOrgId with
      | none => (none, st)
      | some oid => (orgsGet st.db oid, st)

/-- listAllUsers: all users with passwordHash stripped. -/
def listAllUsers (st : AuthState) : List SafeUser × AuthState :=
  if !st.isBrowser then ([], st)
  else (st.db.users.map stripHash, st)

/-- deleteUserByEmail: find the user by lower-cased email; when present,
delete (in one transaction) the sessions and memberships with that
userId and then the user row itself. -/
def deleteUserByEmail (st : AuthState) (email : String) : AuthState :=
  if !st.isBrowser then st
  else
    match firstUserByEmail st.db (toLowerStr email) with
    | none => st
    | some user =>
      { st with db :=
        { st.db with
          sessions := st.db.sessions.filter fun s => !(s.userId == user.id)
          members := st.db.members.filter fun m => !(m.userId == user.id)
          users := st.db.users.filter fun u => !(u.id == user.id) } }

/-- Diagnostic record built by validateSessionSync: each field is none
until the code assigns it. -/
structure ValidateDetails where
  error : Option String := none
  hasLocalStorageRef : Option Bool := none
  sessionId : Option String := none
  hasIndexedDBSession : Option Bool := none
  tokenMatch : Option Bool := none
  notExpired : Option Bool := none
  hasUser : Option Bool := none
deriving DecidableEq

/-- Result of validateSessionSync. -/
structure ValidateResult where
  valid : Bool
  details : ValidateDetails
deriving DecidableEq

/-- validateSessionSync: the read-only diagnostic oracle. valid is
computed as: session row present AND token equal AND expiresAt strictly
after now. The user lookup feeds only details.hasUser. -/
def validateSessionSync (st : AuthState) (now : Nat) : ValidateResult × AuthState :=
  if !st.isBrowser then
    ({ valid := false, details := { error := some "Not in browser" } }, st)
  else
    let refOpt := st.sessionRef
    let d0 : ValidateDetails :=
      { hasLocalStorageRef := some refOpt.isSome
        sessionId := refOpt.map fun r => r.sessionId }
    match refOpt with
    | none => ({ valid := false, details := d0 }, st)
    | some ref =>
      let sOpt := sessionsGet st.db ref.sessionId
      let d1 : ValidateDetails :=
        { d0 with
          hasIndexedDBSession := some sOpt.isSome
          tokenMatch := some ((sOpt.map fun s => s.token) == some ref.token)
          notExpired := some (match sOpt with
            | some s => decide (now < s.expiresAt)
            | none => false) }
      let d2 : ValidateDetails :=
        match sOpt with
        | some s => { d1 with hasUser := some (usersGet st.db s.userId).isSome }
        | none => d1
      let valid : Bool :=
        match sOpt with
        | some s => s.token == ref.token && decide (now < s.expiresAt)
        | none => false
      ({ valid := valid, details := d2 }, st)

/-- The in-memory session of the auth context after signIn.email: on
success the context stores the FULL user record returned by signInEmail
together with the session; on failure the previous value is kept. -/
def ctxSessionAfterSignIn (hashFn : String → String) (st : AuthState) (now : Nat)
    (sessId token : String) (data : SignInData)
    (prev : Option (User × Session)) : Option (User × Session) :=
  match (signInEmail hashFn st now sessId token data).1 with
  | Except.ok r => some (r.user, r.session)
  | Except.error _ => prev

/-- The in-memory session of the auth context after signUp.email. -/
def ctxSessionAfterSignUp (hashFn : String → String) (st : AuthState) (now : Nat)
    (userId sessId token : String) (data : SignUpData)
    (prev : Option (User × Session)) : Option (User × Session) :=
  match (signUpEmail hashFn st now userId sessId token data).1 with
  | Except.ok r => some (r.user, r.session)
  | Except.error _ => prev

end IoltaAuth

namespace IoltaStorage

/-!
Model of the localStorage helper (src/lib/storage/local-storage-helpers.ts).

JSON-serializable values (with embedded Date objects before
serialization) are modelled by the mutually inductive SValue / SArr /
SObj. Date objects carry their epoch-millisecond timestamp. The platform
primitives Date.prototype.toISOString and new Date(string) (with the
isNaN getTime validity check) are modelled by a pair of parameters
iso : Nat -> String and parseD : String -> Option Nat; parseD returns
none exactly when the string does not parse to a valid date.

JSON.stringify / JSON.parse form an identity pair on date-free values,
so the store maps each key to the parsed denotation of the stored JSON
string directly.
-/

mutual
inductive SValue where
  | vnull : SValue
  | vbool : Bool → SValue
  | vnum : Int → SValue
  | vstr : String → SValue
  | vdate : Nat → SValue
  | varr : SArr → SValue
  | vobj : SObj → SValue
inductive SArr where
  | anil : SArr
  | acons : SValue → SArr → SArr
inductive SObj where
  | onil : SObj
  | ocons : String → SValue → SObj → SObj
end

/-- The defaultDateFields list of deserializeDates. -/
def defaultDateFields : List String :=
  ["createdAt", "updatedAt", "timestamp", "expiresAt",
   "openDate", "closeDate", "releasedAt", "generatedAt"]

/-- The allDateFields set: default fields unioned with the caller-supplied
ones. (The source dedups via a JS Set; deduplication does not change
membership, which is all the set is used for.) -/
def allDateFields (ds : List String) : List String := defaultDateFields ++ ds

mutual
/-- serializeDates: recursively convert Date objects to their ISO string
(the iso parameter), mapping over arrays and object entries, leaving
every other value unchanged. -/
def serializeDates (iso : Nat → String) : SValue → SValue
  | .vnull => .vnull
  | .vbool b => .vbool b
  | .vnum n => .vnum n
  | .vstr s => .vstr s
  | .vdate t => .vstr (iso t)
  | .varr xs => .varr (serializeArr iso xs)
  | .vobj fs => .vobj (serializeObj iso fs)
def serializeArr (iso : Nat → String) : SArr → SArr
  | .anil => .anil
  | .acons v tl => .acons (serializeDates iso v) (serializeArr iso tl)
def serializeObj (iso : Nat → String) : SObj → SObj
  | .onil => .onil
  | .ocons k v tl => .ocons k (serializeDates iso v) (serializeObj iso tl)
end

/-- JS typeof value === the string "object": true for null, Date objects,
arrays and plain objects. -/
def isObjectType : SValue → Bool
  | .vnull => true
  | .vdate _ => true
  | .varr _ => true
  | .vobj _ => true
  | _ => false

mutual
/-- deserializeDates: convert back string values sitting under a field
name in the date-field set, when they parse to a valid date; recurse into
arrays and nested objects; leave everything else unchanged. (A Date fed
to the object branch enumerates as zero entries, hence the vobj onil
result for the vdate input case, which never occurs on parsed JSON.) -/
def deserializeDates (parseD : String → Option Nat) (ds : List String) : SValue → SValue
  | .vnull => .vnull
  | .varr xs => .varr (deserializeArr parseD ds xs)
  | .vobj fs => .vobj (deserializeObj parseD ds fs)
  | .vdate _ => .vobj .onil
  | v => v
def deserializeArr (parseD : String → Option Nat) (ds : List String) : SArr → SArr
  | .anil => .anil
  | .acons v tl => .acons (deserializeDates parseD ds v) (deserializeArr parseD ds tl)
def deserializeObj (parseD : String → Option Nat) (ds : List String) : SObj → SObj
  | .onil => .onil
  | .ocons k v tl =>
    let v2 : SValue :=
      match v with
      | .vstr s =>
        if k ∈ allDateFields ds then
          match parseD s with
          | some t => .vdate t
          | none => .vstr s
        else .vstr s
      | w => if isObjectType w then deserializeDates parseD ds w else w
    .ocons k v2 (deserializeObj parseD ds tl)
end

/-- Test for a Date object (used to phrase the hypothesis of the
round-trip claim). -/
def isDateVal : SValue → Bool
  | .vdate _ => true
  | _ => false

mutual
/-- Hypothesis of the round-trip claim: every field whose name is in the
date-field set holds a Date, and Date objects occur only as the immediate
value of such fields. -/
def goodVal (ds : List String) : SValue → Bool
  | .vnull => true
  | .vbool _ => true
  | .vnum _ => true
  | .vstr _ => true
  | .vdate _ => false
  | .varr xs => goodArr ds xs
  | .vobj fs => goodObj ds fs
def goodArr (ds : List String) : SArr → Bool
  | .anil => true
  | .acons v tl => goodVal ds v && goodArr ds tl
def goodObj (ds : List String) : SObj → Bool
  | .onil => true
  | .ocons k v tl =>
    (if k ∈ allDateFields ds then isDateVal v else goodVal ds v) && goodObj ds tl
end

/-- The browser localStorage contents: key to stored (parsed) value. -/
abbrev Store := List (String × SValue)

/-- localStorage.setItem: overwrite the binding of the key. -/
def storeSet (store : Store) (key : String) (v : SValue) : Store :=
  (key, v) :: store.filter fun kv => !(kv.1 == key)

/-- localStorage.getItem. -/
def storeGet (store : Store) (key : String) : Option SValue :=
  (store.find? fun kv => kv.1 == key).map fun kv => kv.2

/-- saveToLocalStorage: serialize the dates, JSON-stringify, write under
the key; returns the success flag together with the new store. -/
def saveToLocalStorage (iso : Nat → String) (key : String) (v : SValue)
    (store : Store) : Bool × Store :=
  (true, storeSet store key (serializeDates iso v))

/-- loadFromLocalStorage: none when the key is absent; otherwise
JSON-parse, restore dates, and apply the optional validator, returning
none when it rejects. -/
def loadFromLocalStorage (parseD : String → Option Nat) (key : String)
    (ds : List String) (validator : Option (SValue → Bool))
    (store : Store) : Option SValue :=
  match storeGet store key with
  | none => none
  | some raw =>
    let d := deserializeDates parseD ds raw
    match validator with
    | some f => if f d then some d else none
    | none => some d

/-- A concrete date codec for witnesses: unary encoding of the timestamp.
It satisfies the parse-inverts-print property that the platform pair
toISOString / new Date has. -/
def unaryIso (t : Nat) : String := String.mk (List.replicate t 'd')

/-- Concrete parser matching unaryIso. -/
def unaryParse (s : String) : Option Nat := some s.length

end IoltaStorage

namespace IoltaAuth

/-- A concrete user for boundary scenarios. -/
def bUser : User :=
  { id := "u1", email := "a@b.c", name := "A", passwordHash := "h"
    createdAt := 0, updatedAt := 0 }

/-- A concrete session expiring at the given time. -/
def bSession (exp : Nat) : Session :=
  { id := "s1", userId := "u1", token := "tok", expiresAt := exp, createdAt := 0 }

/-- A concrete in-browser state with one user, one session expiring at
exp, and a matching SessionRef. -/
def bState (exp : Nat) : AuthState :=
  { isBrowser := true
    db := { users := [bUser], sessions := [bSession exp]
            organizations := [], members := [], appData := [] }
    sessionRef := some ⟨"s1", "tok", none⟩
    cookie := none }

/-- A concrete in-browser state whose session row is intact and unexpired
but whose user row is absent (orphaned session). -/
def orphanState : AuthState :=
  { isBrowser := true
    db := { users := [], sessions := [bSession 2000]
            organizations := [], members := [], appData := [] }
    sessionRef := some ⟨"s1", "tok", none⟩
    cookie := none }

/-- A concrete in-browser state with empty tables and no SessionRef. -/
def emptyState : AuthState :=
  { isBrowser := true
    db := { users := [], sessions := [], organizations := [], members := [], appData := [] }
    sessionRef := none
    cookie := none }

/-- A concrete server-side (non-browser) state. -/
def serverState : AuthState :=
  { isBrowser := false
    db := { users := [bUser], sessions := [bSession 2000]
            organizations := [], members := [], appData := [] }
    sessionRef := some ⟨"s1", "tok", none⟩
    cookie := some "tok" }

/-- Helper: find? over an append whose first part has no hit. -/
theorem find?_append_none {α : Type} (p : α → Bool) {l1 : List α} (l2 : List α)
    (h : l1.find? p = none) : (l1 ++ l2).find? p = l2.find? p := by
  simp [List.find?_append, h]

/-- Helper: getSession in the browser with no SessionRef is a no-op
returning null. -/
theorem getSession_noRef (st : AuthState) (now : Nat)
    (hb : st.isBrowser = true) (h : st.sessionRef = none) :
    getSession st now = (none, st) := by
  simp [getSession, hb, h]

/-- C1 counterexample: in the boundary state whose session expires
exactly at the current time (now = 1000, expiresAt = 1000), getSession
does NOT treat the session as expired: it returns a non-null result, the
Session row is not deleted, and the SessionReference is not cleared. -/
theorem getSession_expiry_equal_counterexample :
    (getSession (bState 1000) 1000).1.isSome = true ∧
    (getSession (bState 1000) 1000).2.db.sessions = [bSession 1000] ∧
    (getSession (bState 1000) 1000).2.sessionRef = some ⟨"s1", "tok", none⟩ := by
  refine ⟨?_, ?_, ?_⟩ <;> decide

/-- C1 (amended): getSession treats a session as expired (deletes the
row, clears the reference, returns null) exactly when expiresAt is
strictly before the current time; a session whose expiresAt equals the
current time, or is one millisecond later, is still valid and is
returned. -/
theorem getSession_expiryBoundary (st : AuthState) (now : Nat)
    (ref : SessionRef) (s : Session) (u : User)
    (hb : st.isBrowser = true) (href : st.sessionRef = some ref)
    (hs : sessionsGet st.db ref.sessionId = some s) (ht : s.token = ref.token)
    (hu : usersGet st.db s.userId = some u) :
    (s.expiresAt < now →
      getSession st now = (none, clearRefState (deleteSessionRow st s.id))) ∧
    (now ≤ s.expiresAt →
      getSession st now = (some ⟨stripHash u, s⟩, setCookieState st s.token)) := by
  constructor
  · intro hlt
    simp [getSession, hb, href, hs, ht, hlt]
  · intro hle
    simp [getSession, hb, href, hs, ht, Nat.not_lt.mpr hle, hu]

/-- Witness for the amended C1 at the two boundary instances: expiry
equal to now (valid) and expiry strictly below now (expired). -/
theorem getSession_expiryBoundary_witness :
    getSession (bState 1000) 1000 =
      (some ⟨stripHash bUser, bSession 1000⟩, setCookieState (bState 1000) "tok") ∧
    getSession (bState 999) 1000 =
      (none, clearRefState (deleteSessionRow (bState 999) "s1")) :=
  ⟨(getSession_expiryBoundary (bState 1000) 1000 ⟨"s1", "tok", none⟩
      (bSession 1000) bUser rfl rfl (by decide) rfl (by decide)).2 (by decide),
   (getSession_expiryBoundary (bState 999) 1000 ⟨"s1", "tok", none⟩
      (bSession 999) bUser rfl rfl (by decide) rfl (by decide)).1 (by decide)⟩

end IoltaAuth

namespace IoltaAuth

/-- C2 counterexample: in a state whose Session row is intact, token
matches and expiry is in the future, but whose User row is absent,
validateSessionSync reports valid = true while getSession on the same
state returns null (the looked-up user being absent is a getSession
failure mode that valid does not reflect). -/
theorem validateSessionSync_user_absent_counterexample :
    (validateSessionSync orphanState 1000).1.valid = true ∧
    (getSession orphanState 1000).1 = none := by
  refine ⟨?_, ?_⟩ <;> decide

/-- C2 (amended): validateSessionSync never mutates any state, and it
returns valid = true exactly when the SessionReference exists, the
referenced Session row exists, the tokens agree, and expiresAt is
strictly after now. This covers five of the six failure modes of
getSession: the absence of the looked-up user is recorded in the
details but is not reflected in valid, and at expiresAt exactly equal
to now the two functions also differ (getSession still accepts). -/
theorem validateSessionSync_characterization (st : AuthState) (now : Nat) :
    (validateSessionSync st now).2 = st ∧
    (st.isBrowser = true →
      ((validateSessionSync st now).1.valid = true ↔
        ∃ ref s, st.sessionRef = some ref ∧
          sessionsGet st.db ref.sessionId = some s ∧
          s.token = ref.token ∧ now < s.expiresAt)) := by
  constructor
  · by_cases hb : st.isBrowser
    · cases href : st.sessionRef with
      | none => simp [validateSessionSync, hb, href]
      | some ref =>
        cases hs : sessionsGet st.db ref.sessionId with
        | none => simp [validateSessionSync, hb, href, hs]
        | some s => simp [validateSessionSync, hb, href, hs]
    · simp [validateSessionSync, hb]
  · intro hb
    cases href : st.sessionRef with
    | none => simp [validateSessionSync, hb, href]
    | some ref =>
      cases hs : sessionsGet st.db ref.sessionId with
      | none => simp [validateSessionSync, hb, href, hs]
      | some s =>
        simp [validateSessionSync, hb, href, hs, Bool.and_eq_true, beq_iff_eq,
          decide_eq_true_iff, and_assoc]

/-- Witness for the amended C2 at a concrete valid state. -/
theorem validateSessionSync_characterization_witness :
    (validateSessionSync (bState 2000) 1000).2 = bState 2000 ∧
    ((bState 2000).isBrowser = true →
      ((validateSessionSync (bState 2000) 1000).1.valid = true ↔
        ∃ ref s, (bState 2000).sessionRef = some ref ∧
          sessionsGet (bState 2000).db ref.sessionId = some s ∧
          s.token = ref.token ∧ 1000 < s.expiresAt)) :=
  validateSessionSync_characterization (bState 2000) 1000

/-- C3: whenever a SessionReference exists but any validity check fails
(session row absent, token mismatch, expiry strictly in the past, or the
user row absent), getSession returns null and clears both the
SessionReference and the cookie, and an immediate second call returns
null again while changing nothing. -/
theorem getSession_selfHealing (st : AuthState) (now : Nat) (ref : SessionRef)
    (hb : st.isBrowser = true) (href : st.sessionRef = some ref)
    (hfail : sessionsGet st.db ref.sessionId = none ∨
      ∃ s, sessionsGet st.db ref.sessionId = some s ∧
        (s.token ≠ ref.token ∨ s.expiresAt < now ∨ usersGet st.db s.userId = none)) :
    (getSession st now).1 = none ∧
    (getSession st now).2.sessionRef = none ∧
    (getSession st now).2.cookie = none ∧
    getSession (getSession st now).2 now = (none, (getSession st now).2) := by
  rcases hfail with hnone | ⟨s, hs, hcase⟩
  · have h1 : getSession st now = (none, clearRefState st) := by
      simp [getSession, hb, href, hnone]
    rw [h1]
    exact ⟨rfl, rfl, rfl,
      getSession_noRef _ _ (by simp [clearRefState, hb]) rfl⟩
  · by_cases htok : s.token = ref.token
    · by_cases hexp : s.expiresAt < now
      · have h1 : getSession st now = (none, clearRefState (deleteSessionRow st s.id)) := by
          simp [getSession, hb, href, hs, htok, hexp]
        rw [h1]
        exact ⟨rfl, rfl, rfl,
          getSession_noRef _ _ (by simp [clearRefState, deleteSessionRow, hb]) rfl⟩
      · rcases hcase with h | h | h
        · exact absurd htok h
        · exact absurd h hexp
        · have h1 : getSession st now = (none, clearRefState (deleteSessionRow st s.id)) := by
            simp [getSession, hb, href, hs, htok, hexp, h]
          rw [h1]
          exact ⟨rfl, rfl, rfl,
            getSession_noRef _ _ (by simp [clearRefState, deleteSessionRow, hb]) rfl⟩
    · have h1 : getSession st now = (none, clearRefState st) := by
        simp [getSession, hb, href, hs, htok]
      rw [h1]
      exact ⟨rfl, rfl, rfl,
        getSession_noRef _ _ (by simp [clearRefState, hb]) rfl⟩

/-- A concrete state whose SessionRef points at a deleted session row. -/
def staleRefState : AuthState :=
  { emptyState with sessionRef := some ⟨"s1", "tok", none⟩ }

/-- Witness for C3: the stale-reference state (session row externally
deleted). -/
theorem getSession_selfHealing_witness :
    (getSession staleRefState 0).1 = none ∧
    (getSession staleRefState 0).2.sessionRef = none ∧
    (getSession staleRefState 0).2.cookie = none ∧
    getSession (getSession staleRefState 0).2 0 = (none, (getSession staleRefState 0).2) :=
  getSession_selfHealing staleRefState 0 ⟨"s1", "tok", none⟩ rfl rfl (Or.inl (by decide))

end IoltaAuth

namespace IoltaAuth

/-- C4: from a browser state containing no user with the normalized
email, and with fresh generated ids, signUpEmail succeeds; the created
user carries the lower-cased email, the created session expires exactly
7 days after creation, a SessionReference and cookie are present
immediately afterwards, and an immediate getSession returns that user
with the passwordHash field stripped (the SafeUser record has no such
field). -/
theorem signUp_getSession_roundTrip (hashFn : String → String) (st : AuthState)
    (now : Nat) (uid sid tok : String) (d : SignUpData)
    (hb : st.isBrowser = true)
    (hdup : firstUserByEmail st.db (toLowerStr d.email) = none)
    (hfu : usersGet st.db uid = none)
    (hfs : sessionsGet st.db sid = none) :
    ∃ (r : SignUpResult) (st1 : AuthState),
      signUpEmail hashFn st now uid sid tok d = (Except.ok r, st1) ∧
      r.user.email = toLowerStr d.email ∧
      r.session.expiresAt = now + 7 * 24 * 60 * 60 * 1000 ∧
      st1.sessionRef = some ⟨sid, tok, none⟩ ∧
      st1.cookie = some tok ∧
      (getSession st1 now).1 = some ⟨stripHash r.user, r.session⟩ ∧
      (stripHash r.user).email = toLowerStr d.email := by
  refine ⟨⟨{ id := uid, email := toLowerStr d.email, name := d.name
             passwordHash := hashFn d.password, createdAt := now, updatedAt := now },
           { id := sid, userId := uid, token := tok
             expiresAt := now + 7 * 24 * 60 * 60 * 1000, createdAt := now }⟩,
          setRefState
            { st with db := { st.db with
                users := st.db.users ++
                  [{ id := uid, email := toLowerStr d.email, name := d.name
                     passwordHash := hashFn d.password, createdAt := now, updatedAt := now }]
                sessions := st.db.sessions ++
                  [{ id := sid, userId := uid, token := tok
                     expiresAt := now + 7 * 24 * 60 * 60 * 1000, createdAt := now }] } }
            ⟨sid, tok, none⟩,
          ?_, rfl, rfl, rfl, rfl, ?_, rfl⟩
  · simp [signUpEmail, hb, hdup]
  · have hsget : sessionsGet
        { st.db with
          users := st.db.users ++
            [{ id := uid, email := toLowerStr d.email, name := d.name
               passwordHash := hashFn d.password, createdAt := now, updatedAt := now }]
          sessions := st.db.sessions ++
            [{ id := sid, userId := uid, token := tok
               expiresAt := now + 7 * 24 * 60 * 60 * 1000, createdAt := now }] } sid =
        some { id := sid, userId := uid, token := tok
               expiresAt := now + 7 * 24 * 60 * 60 * 1000, createdAt := now } := by
      unfold sessionsGet at hfs ⊢
      simp only []
      rw [find?_append_none _ _ hfs]
      simp
    have huget : usersGet
        { st.db with
          users := st.db.users ++
            [{ id := uid, email := toLowerStr d.email, name := d.name
               passwordHash := hashFn d.password, createdAt := now, updatedAt := now }]
          sessions := st.db.sessions ++
            [{ id := sid, userId := uid, token := tok
               expiresAt := now + 7 * 24 * 60 * 60 * 1000, createdAt := now }] } uid =
        some { id := uid, email := toLowerStr d.email, name := d.name
               passwordHash := hashFn d.password, createdAt := now, updatedAt := now } := by
      unfold usersGet at hfu ⊢
      simp only []
      rw [find?_append_none _ _ hfu]
      simp
    have hnexp : ¬ (now + 7 * 24 * 60 * 60 * 1000 < now) :=
      Nat.not_lt.mpr (Nat.le_add_right now _)
    simp [getSession, setRefState, hb, hsget, huget, hnexp]

/-- Witness for C4: the concrete sign-up scenario of the spec on an empty
browser state. -/
theorem signUp_getSession_roundTrip_witness :
    ∃ (r : SignUpResult) (st1 : AuthState),
      signUpEmail (fun p => String.append "#" p) emptyState 0 "u1" "s1" "t1"
          ⟨"Jane@Example.com", "hunter22", "Jane Doe"⟩ = (Except.ok r, st1) ∧
      r.user.email = toLowerStr "Jane@Example.com" ∧
      r.session.expiresAt = 0 + 7 * 24 * 60 * 60 * 1000 ∧
      st1.sessionRef = some ⟨"s1", "t1", none⟩ ∧
      st1.cookie = some "t1" ∧
      (getSession st1 0).1 = some ⟨stripHash r.user, r.session⟩ ∧
      (stripHash r.user).email = toLowerStr "Jane@Example.com" :=
  signUp_getSession_roundTrip (fun p => String.append "#" p) emptyState 0 "u1" "s1" "t1"
    ⟨"Jane@Example.com", "hunter22", "Jane Doe"⟩ rfl rfl rfl rfl

end IoltaAuth

namespace IoltaAuth

/-- Helper: signUpEmail fails with the duplicate error, changing nothing,
when a user with the normalized email already exists. -/
theorem signUpEmail_dup (hashFn : String → String) (st : AuthState) (now : Nat)
    (uid sid tok : String) (d : SignUpData) (hb : st.isBrowser = true)
    (u : User) (hdup : firstUserByEmail st.db (toLowerStr d.email) = some u) :
    signUpEmail hashFn st now uid sid tok d =
      (Except.error "Email already registered", st) := by
  simp [signUpEmail, hb, hdup]

/-- C5: if a first sign-up succeeds, a second sign-up whose email is
equal after lower-casing (whatever the casing of either) fails with the
duplicate-email error and leaves the state of the first call untouched;
after the failed call the Users table contains exactly the one row with
that normalized email created by the first call, and only the one
session created by the first call was added. -/
theorem signUp_duplicateEmail (hashFn : String → String) (st : AuthState)
    (now now2 : Nat) (uid sid tok uid2 sid2 tok2 : String) (d1 d2 : SignUpData)
    (hem : toLowerStr d1.email = toLowerStr d2.email)
    (r1 : SignUpResult) (st1 : AuthState)
    (h1 : signUpEmail hashFn st now uid sid tok d1 = (Except.ok r1, st1)) :
    signUpEmail hashFn st1 now2 uid2 sid2 tok2 d2 =
      (Except.error "Email already registered", st1) ∧
    st1.db.users.filter (fun u => u.email == toLowerStr d1.email) = [r1.user] ∧
    st1.db.users = st.db.users ++ [r1.user] ∧
    st1.db.sessions = st.db.sessions ++ [r1.session] := by
  by_cases hb : st.isBrowser
  · cases hdup : firstUserByEmail st.db (toLowerStr d1.email) with
    | some u =>
      rw [signUpEmail] at h1
      simp [hb, hdup] at h1
    | none =>
      rw [signUpEmail] at h1
      simp only [hb, hdup, Bool.not_true, Bool.false_eq_true, if_false,
        Prod.mk.injEq] at h1
      obtain ⟨hr, hst⟩ := h1
      rw [Except.ok.injEq] at hr
      subst hr
      have hdup' : st.db.users.find? (fun u => u.email == toLowerStr d1.email) = none := hdup
      have hall : ∀ x ∈ st.db.users, ¬ (x.email == toLowerStr d1.email) = true :=
        List.find?_eq_none.mp hdup'
      have husers : st1.db.users = st.db.users ++
          [{ id := uid, email := toLowerStr d1.email, name := d1.name
             passwordHash := hashFn d1.password, createdAt := now, updatedAt := now }] := by
        rw [← hst]; rfl
      have hsess : st1.db.sessions = st.db.sessions ++
          [{ id := sid, userId := uid, token := tok
             expiresAt := now + 7 * 24 * 60 * 60 * 1000, createdAt := now }] := by
        rw [← hst]; rfl
      have hbrow1 : st1.isBrowser = true := by
        rw [← hst]; rfl
      have hfind1 : firstUserByEmail st1.db (toLowerStr d2.email) =
          some { id := uid, email := toLowerStr d1.email, name := d1.name
                 passwordHash := hashFn d1.password, createdAt := now, updatedAt := now } := by
        unfold firstUserByEmail
        rw [husers, ← hem, find?_append_none _ _ hdup']
        simp
      refine ⟨signUpEmail_dup hashFn st1 now2 uid2 sid2 tok2 d2 hbrow1 _ hfind1,
        ?_, by rw [husers], by rw [hsess]⟩
      rw [husers]
      rw [List.filter_append, List.filter_eq_nil_iff.mpr hall]
      simp
  · rw [signUpEmail] at h1
    simp [hb] at h1

/-- Concrete user created by the witness sign-up for C5. -/
def w5User : User :=
  { id := "u1", email := toLowerStr "Jane@Example.com", name := "Jane Doe"
    passwordHash := String.append "#" "hunter22", createdAt := 0, updatedAt := 0 }

/-- Concrete session created by the witness sign-up for C5. -/
def w5Session : Session :=
  { id := "s1", userId := "u1", token := "t1"
    expiresAt := 0 + 7 * 24 * 60 * 60 * 1000, createdAt := 0 }

/-- Concrete post-state of the witness sign-up for C5. -/
def w5State : AuthState :=
  setRefState
    { emptyState with db := { emptyState.db with
        users := emptyState.db.users ++ [w5User]
        sessions := emptyState.db.sessions ++ [w5Session] } }
    ⟨"s1", "t1", none⟩

/-- Witness for C5: two concrete sign-ups with differently cased copies
of the same email. -/
theorem signUp_duplicateEmail_witness :
    signUpEmail (fun p => String.append "#" p) w5State 5 "u2" "s2" "t2"
        ⟨"jane@example.COM", "other", "J2"⟩ =
      (Except.error "Email already registered", w5State) ∧
    w5State.db.users.filter (fun u => u.email == toLowerStr "Jane@Example.com") = [w5User] ∧
    w5State.db.users = emptyState.db.users ++ [w5User] ∧
    w5State.db.sessions = emptyState.db.sessions ++ [w5Session] :=
  signUp_duplicateEmail (fun p => String.append "#" p) emptyState 0 5
    "u1" "s1" "t1" "u2" "s2" "t2"
    ⟨"Jane@Example.com", "hunter22", "Jane Doe"⟩ ⟨"jane@example.COM", "other", "J2"⟩
    (by decide) ⟨w5User, w5Session⟩ w5State rfl

end IoltaAuth

namespace IoltaAuth

/-- C6: signInEmail with an unknown email, or with a password whose
digest differs from the stored hash, fails with the
invalid-credentials message and returns the state unchanged (no session
row, table, SessionReference or cookie change). -/
theorem signIn_invalidCredentials (hashFn : String → String) (st : AuthState)
    (now : Nat) (sid tok : String) (d : SignInData)
    (hb : st.isBrowser = true)
    (hfail : firstUserByEmail st.db (toLowerStr d.email) = none ∨
      ∃ u, firstUserByEmail st.db (toLowerStr d.email) = some u ∧
        hashFn d.password ≠ u.passwordHash) :
    signInEmail hashFn st now sid tok d =
      (Except.error "Invalid email or password", st) := by
  rcases hfail with hnone | ⟨u, hu, hne⟩
  · simp [signInEmail, hb, hnone]
  · simp [signInEmail, hb, hu, hne]

/-- Witness for C6: the concrete sign-in failure scenario of the spec on
a store with no users. -/
theorem signIn_invalidCredentials_witness :
    signInEmail (fun p => String.append "#" p) emptyState 0 "s1" "t1"
        ⟨"nobody@example.com", "x"⟩ =
      (Except.error "Invalid email or password", emptyState) :=
  signIn_invalidCredentials (fun p => String.append "#" p) emptyState 0 "s1" "t1"
    ⟨"nobody@example.com", "x"⟩ rfl (Or.inl rfl)

/-- C7: deleteUserByEmail leaves Organizations, the non-auth tables, the
SessionReference and the cookie untouched; when a user with the
normalized email exists it removes exactly the rows with that user id
from Users, Sessions and Members (every other row survives); when no
user matches, the state is entirely unchanged. -/
theorem deleteUserByEmail_cascade (st : AuthState) (email : String)
    (hb : st.isBrowser = true) :
    (deleteUserByEmail st email).db.organizations = st.db.organizations ∧
    (deleteUserByEmail st email).db.appData = st.db.appData ∧
    (deleteUserByEmail st email).sessionRef = st.sessionRef ∧
    (deleteUserByEmail st email).cookie = st.cookie ∧
    (∀ u, firstUserByEmail st.db (toLowerStr email) = some u →
      u ∉ (deleteUserByEmail st email).db.users ∧
      (∀ v, v ∈ (deleteUserByEmail st email).db.users ↔
        v ∈ st.db.users ∧ v.id ≠ u.id) ∧
      (∀ s, s ∈ (deleteUserByEmail st email).db.sessions ↔
        s ∈ st.db.sessions ∧ s.userId ≠ u.id) ∧
      (∀ m, m ∈ (deleteUserByEmail st email).db.members ↔
        m ∈ st.db.members ∧ m.userId ≠ u.id)) ∧
    (firstUserByEmail st.db (toLowerStr email) = none →
      deleteUserByEmail st email = st) := by
  cases hcase : firstUserByEmail st.db (toLowerStr email) with
  | none =>
    refine ⟨by simp [deleteUserByEmail, hb, hcase], by simp [deleteUserByEmail, hb, hcase],
      by simp [deleteUserByEmail, hb, hcase], by simp [deleteUserByEmail, hb, hcase], ?_, ?_⟩
    · intro u hu
      simp at hu
    · intro _
      simp [deleteUserByEmail, hb, hcase]
  | some u0 =>
    refine ⟨by simp [deleteUserByEmail, hb, hcase], by simp [deleteUserByEmail, hb, hcase],
      by simp [deleteUserByEmail, hb, hcase], by simp [deleteUserByEmail, hb, hcase], ?_, ?_⟩
    · intro u hu
      rw [Option.some.injEq] at hu
      subst hu
      refine ⟨?_, ?_, ?_, ?_⟩
      · simp [deleteUserByEmail, hb, hcase, List.mem_filter]
      · intro v
        simp [deleteUserByEmail, hb, hcase, List.mem_filter]
      · intro s
        simp [deleteUserByEmail, hb, hcase, List.mem_filter]
      · intro m
        simp [deleteUserByEmail, hb, hcase, List.mem_filter]
    · intro h
      simp at h

/-- Second concrete user, untouched by the C7 witness deletion. -/
def otherUser : User :=
  { id := "u2", email := "x@y.z", name := "X", passwordHash := "h2"
    createdAt := 0, updatedAt := 0 }

/-- Concrete state for the C7 witness: one target user with a session
and a membership, a second user with their own session and membership,
one organization, and a non-auth row. -/
def delState : AuthState :=
  { isBrowser := true
    db := { users := [bUser, otherUser]
            sessions := [bSession 10,
              { id := "s2", userId := "u1", token := "t2", expiresAt := 20, createdAt := 0 },
              { id := "s3", userId := "u2", token := "t3", expiresAt := 30, createdAt := 0 }]
            organizations := [{ id := "o1", name := "Firm", slug := "firm"
                                logo := none, createdAt := 0 }]
            members := [{ id := "m1", userId := "u1", organizationId := "o1"
                          role := "owner", createdAt := 0 },
                        { id := "m2", userId := "u2", organizationId := "o1"
                          role := "member", createdAt := 0 }]
            appData := [("clients", "c1")] }
    sessionRef := some ⟨"s1", "tok", none⟩
    cookie := some "tok" }

/-- Witness for C7: deleting the first user (upper-cased email) in the
populated concrete state. -/
theorem deleteUserByEmail_cascade_witness :
    (deleteUserByEmail delState "A@B.C").db.organizations = delState.db.organizations ∧
    (deleteUserByEmail delState "A@B.C").db.appData = delState.db.appData ∧
    (deleteUserByEmail delState "A@B.C").sessionRef = delState.sessionRef ∧
    (deleteUserByEmail delState "A@B.C").cookie = delState.cookie ∧
    (∀ u, firstUserByEmail delState.db (toLowerStr "A@B.C") = some u →
      u ∉ (deleteUserByEmail delState "A@B.C").db.users ∧
      (∀ v, v ∈ (deleteUserByEmail delState "A@B.C").db.users ↔
        v ∈ delState.db.users ∧ v.id ≠ u.id) ∧
      (∀ s, s ∈ (deleteUserByEmail delState "A@B.C").db.sessions ↔
        s ∈ delState.db.sessions ∧ s.userId ≠ u.id) ∧
      (∀ m, m ∈ (deleteUserByEmail delState "A@B.C").db.members ↔
        m ∈ delState.db.members ∧ m.userId ≠ u.id)) ∧
    (firstUserByEmail delState.db (toLowerStr "A@B.C") = none →
      deleteUserByEmail delState "A@B.C" = delState) :=
  deleteUserByEmail_cascade delState "A@B.C" rfl

end IoltaAuth

namespace IoltaAuth

/-- C9: outside the browser, the read-path operations return null, an
empty list, or an invalid-marked diagnostic record without touching any
state, and the mutating operations signUpEmail, signInEmail and
createOrganization throw; every operation leaves the state exactly as it
was. -/
theorem nonBrowser_behavior (st : AuthState) (hb : st.isBrowser = false) :
    (∀ now, getSession st now = (none, st)) ∧
    (∀ uid, getOrganizations st uid = ([], st)) ∧
    (getActiveOrganization st = (none, st)) ∧
    (listAllUsers st = ([], st)) ∧
    (∀ now, validateSessionSync st now =
      ({ valid := false, details := { error := some "Not in browser" } }, st)) ∧
    (∀ hashFn now uid sid tok d, signUpEmail hashFn st now uid sid tok d =
      (Except.error "Auth operations require browser", st)) ∧
    (∀ hashFn now sid tok d, signInEmail hashFn st now sid tok d =
      (Except.error "Auth operations require browser", st)) ∧
    (∀ now oid mid d uid, createOrganization st now oid mid d uid =
      (Except.error "Auth operations require browser", st)) := by
  refine ⟨?_, ?_, ?_, ?_, ?_, ?_, ?_, ?_⟩
  · intro now
    simp [getSession, hb]
  · intro uid
    simp [getOrganizations, hb]
  · simp [getActiveOrganization, hb]
  · simp [listAllUsers, hb]
  · intro now
    simp [validateSessionSync, hb]
  · intro hashFn now uid sid tok d
    simp [signUpEmail, hb]
  · intro hashFn now sid tok d
    simp [signInEmail, hb]
  · intro now oid mid d uid
    simp [createOrganization, hb]

/-- Witness for C9: the concrete server-side state. -/
theorem nonBrowser_behavior_witness :
    (∀ now, getSession serverState now = (none, serverState)) ∧
    (∀ uid, getOrganizations serverState uid = ([], serverState)) ∧
    (getActiveOrganization serverState = (none, serverState)) ∧
    (listAllUsers serverState = ([], serverState)) ∧
    (∀ now, validateSessionSync serverState now =
      ({ valid := false, details := { error := some "Not in browser" } }, serverState)) ∧
    (∀ hashFn now uid sid tok d, signUpEmail hashFn serverState now uid sid tok d =
      (Except.error "Auth operations require browser", serverState)) ∧
    (∀ hashFn now sid tok d, signInEmail hashFn serverState now sid tok d =
      (Except.error "Auth operations require browser", serverState)) ∧
    (∀ now oid mid d uid, createOrganization serverState now oid mid d uid =
      (Except.error "Auth operations require browser", serverState)) :=
  nonBrowser_behavior serverState rfl

/-- C10: a successful signUpEmail returns the FULL user row, whose
passwordHash field equals the digest of the input password; a successful
signInEmail returns exactly the stored user row, passwordHash included;
in both cases the auth context stores that full record (with the
session) as its in-memory session. (getSession, by contrast, returns a
SafeUser with no passwordHash field.) -/
theorem signUp_signIn_fullUser (hashFn : String → String) (st : AuthState)
    (now : Nat) (uid sid tok sid2 tok2 : String)
    (du : SignUpData) (di : SignInData) (prev : Option (User × Session)) :
    (∀ r st1, signUpEmail hashFn st now uid sid tok du = (Except.ok r, st1) →
      r.user.passwordHash = hashFn du.password ∧
      ctxSessionAfterSignUp hashFn st now uid sid tok du prev = some (r.user, r.session)) ∧
    (∀ r st1, signInEmail hashFn st now sid2 tok2 di = (Except.ok r, st1) →
      (∃ u, firstUserByEmail st.db (toLowerStr di.email) = some u ∧ r.user = u) ∧
      ctxSessionAfterSignIn hashFn st now sid2 tok2 di prev = some (r.user, r.session)) := by
  constructor
  · intro r st1 h
    constructor
    · by_cases hb : st.isBrowser
      · cases hdup : firstUserByEmail st.db (toLowerStr du.email) with
        | some u =>
          rw [signUpEmail] at h
          simp [hb, hdup] at h
        | none =>
          rw [signUpEmail] at h
          simp only [hb, hdup, Bool.not_true, Bool.false_eq_true, if_false,
            Prod.mk.injEq] at h
          rw [Except.ok.injEq] at h
          rw [← h.1]
      · rw [signUpEmail] at h
        simp [hb] at h
    · unfold ctxSessionAfterSignUp
      rw [h]
  · intro r st1 h
    have hctx : ctxSessionAfterSignIn hashFn st now sid2 tok2 di prev =
        some (r.user, r.session) := by
      unfold ctxSessionAfterSignIn
      rw [h]
    refine ⟨?_, hctx⟩
    by_cases hb : st.isBrowser
    · cases hfind : firstUserByEmail st.db (toLowerStr di.email) with
      | none =>
        rw [signInEmail] at h
        simp [hb, hfind] at h
      | some u =>
        by_cases hpw : hashFn di.password = u.passwordHash
        · rw [signInEmail] at h
          simp only [hb, hfind, hpw, Bool.not_true, Bool.false_eq_true, if_false,
            ne_eq, not_true_eq_false, Prod.mk.injEq] at h
          rw [Except.ok.injEq] at h
          refine ⟨u, rfl, ?_⟩
          rw [← h.1]
        · rw [signInEmail] at h
          simp [hb, hfind, hpw] at h
    · rw [signInEmail] at h
      simp [hb] at h

end IoltaAuth

namespace IoltaAuth

/-- Session created by the C10 witness sign-in. -/
def w10Session : Session :=
  { id := "s9", userId := "u1", token := "t9"
    expiresAt := 5 + 7 * 24 * 60 * 60 * 1000, createdAt := 5 }

/-- Post-state of the C10 witness sign-in. -/
def w10State : AuthState :=
  setRefState
    { w5State with db := { w5State.db with
        sessions := w5State.db.sessions ++ [w10Session] } }
    ⟨"s9", "t9", none⟩

/-- Witness for C10: the concrete sign-up and a subsequent sign-in with
the same credentials. -/
theorem signUp_signIn_fullUser_witness :
    ((⟨w5User, w5Session⟩ : SignUpResult).user.passwordHash = String.append "#" "hunter22" ∧
     ctxSessionAfterSignUp (fun p => String.append "#" p) emptyState 0 "u1" "s1" "t1"
       ⟨"Jane@Example.com", "hunter22", "Jane Doe"⟩ none = some (w5User, w5Session)) ∧
    ((∃ u, firstUserByEmail w5State.db (toLowerStr "jane@example.com") = some u ∧
        (⟨w5User, w10Session⟩ : SignUpResult).user = u) ∧
     ctxSessionAfterSignIn (fun p => String.append "#" p) w5State 5 "s9" "t9"
       ⟨"jane@example.com", "hunter22"⟩ none = some (w5User, w10Session)) :=
  ⟨(signUp_signIn_fullUser (fun p => String.append "#" p) emptyState 0 "u1" "s1" "t1" "s9" "t9"
      ⟨"Jane@Example.com", "hunter22", "Jane Doe"⟩ ⟨"jane@example.com", "hunter22"⟩ none).1
      ⟨w5User, w5Session⟩ w5State rfl,
   (signUp_signIn_fullUser (fun p => String.append "#" p) w5State 5 "u9" "s1" "t1" "s9" "t9"
      ⟨"x", "y", "z"⟩ ⟨"jane@example.com", "hunter22"⟩ none).2
      ⟨w5User, w10Session⟩ w10State rfl⟩

end IoltaAuth

namespace IoltaStorage

mutual
/-- Helper for the round-trip: restoring after serializing is the
identity on values satisfying the date-field discipline. -/
theorem roundTrip_val (iso : Nat → String) (parseD : String → Option Nat)
    (hp : ∀ t, parseD (iso t) = some t) (ds : List String) :
    ∀ v : SValue, goodVal ds v = true →
      deserializeDates parseD ds (serializeDates iso v) = v
  | .vnull, _ => rfl
  | .vbool _, _ => rfl
  | .vnum _, _ => rfl
  | .vstr _, _ => rfl
  | .vdate _, h => by simp [goodVal] at h
  | .varr xs, h => by
    have := roundTrip_arr iso parseD hp ds xs (by simpa [goodVal] using h)
    simp [serializeDates, deserializeDates, this]
  | .vobj fs, h => by
    have := roundTrip_obj iso parseD hp ds fs (by simpa [goodVal] using h)
    simp [serializeDates, deserializeDates, this]

/-- Helper for the round-trip, array part. -/
theorem roundTrip_arr (iso : Nat → String) (parseD : String → Option Nat)
    (hp : ∀ t, parseD (iso t) = some t) (ds : List String) :
    ∀ xs : SArr, goodArr ds xs = true →
      deserializeArr parseD ds (serializeArr iso xs) = xs
  | .anil, _ => rfl
  | .acons v tl, h => by
    rw [goodArr, Bool.and_eq_true] at h
    have h1 := roundTrip_val iso parseD hp ds v h.1
    have h2 := roundTrip_arr iso parseD hp ds tl h.2
    simp [serializeArr, deserializeArr, h1, h2]

/-- Helper for the round-trip, object part. -/
theorem roundTrip_obj (iso : Nat → String) (parseD : String → Option Nat)
    (hp : ∀ t, parseD (iso t) = some t) (ds : List String) :
    ∀ fs : SObj, goodObj ds fs = true →
      deserializeObj parseD ds (serializeObj iso fs) = fs
  | .onil, _ => rfl
  | .ocons k v tl, h => by
    rw [goodObj, Bool.and_eq_true] at h
    have htl := roundTrip_obj iso parseD hp ds tl h.2
    have hv := h.1
    by_cases hk : k ∈ allDateFields ds
    · rw [if_pos hk] at hv
      cases v with
      | vdate t => simp [serializeObj, deserializeObj, serializeDates, if_pos hk, hp t, htl]
      | vnull => simp [isDateVal] at hv
      | vbool b => simp [isDateVal] at hv
      | vnum n => simp [isDateVal] at hv
      | vstr s => simp [isDateVal] at hv
      | varr xs => simp [isDateVal] at hv
      | vobj fs2 => simp [isDateVal] at hv
    · rw [if_neg hk] at hv
      have h1 := roundTrip_val iso parseD hp ds v hv
      cases v with
      | vdate t => simp [goodVal] at hv
      | vnull =>
        simp [serializeObj, deserializeObj, serializeDates, isObjectType, htl,
          deserializeDates]
      | vbool b => simp [serializeObj, deserializeObj, serializeDates, isObjectType, htl]
      | vnum n => simp [serializeObj, deserializeObj, serializeDates, isObjectType, htl]
      | vstr s => simp [serializeObj, deserializeObj, serializeDates, if_neg hk, htl]
      | varr xs =>
        simp [serializeObj, deserializeObj, serializeDates, isObjectType, htl]
        simpa [serializeDates, deserializeDates] using h1
      | vobj fs2 =>
        simp [serializeObj, deserializeObj, serializeDates, isObjectType, htl]
        simpa [serializeDates, deserializeDates] using h1
end

/-- C8: for any date codec in which parsing inverts printing (as the
platform pair toISOString / new Date has), loading after saving restores
any value whose date-field discipline matches the claim hypothesis
(every field named in the date-field set holds a Date, Dates occur only
there); and loading an absent key yields none. -/
theorem localStorage_roundTrip (iso : Nat → String) (parseD : String → Option Nat)
    (hp : ∀ t, parseD (iso t) = some t) :
    (∀ (key : String) (ds : List String) (v : SValue) (store : Store),
      goodVal ds v = true →
      loadFromLocalStorage parseD key ds none (saveToLocalStorage iso key v store).2 =
        some v) ∧
    (∀ (key : String) (ds : List String) (validator : Option (SValue → Bool))
      (store : Store), storeGet store key = none →
      loadFromLocalStorage parseD key ds validator store = none) := by
  constructor
  · intro key ds v store hg
    have hget : storeGet (storeSet store key (serializeDates iso v)) key =
        some (serializeDates iso v) := by
      unfold storeGet storeSet
      simp
    unfold loadFromLocalStorage saveToLocalStorage
    rw [hget]
    show some (deserializeDates parseD ds (serializeDates iso v)) = some v
    rw [roundTrip_val iso parseD hp ds v hg]
  · intro key ds validator store h
    unfold loadFromLocalStorage
    rw [h]

/-- Parsing inverts printing for the concrete unary codec. -/
theorem unaryParse_unaryIso (t : Nat) : unaryParse (unaryIso t) = some t := by
  show some (String.mk (List.replicate t 'd')).length = some t
  have hlen : (String.mk (List.replicate t 'd')).length = (List.replicate t 'd').length := rfl
  rw [hlen, List.length_replicate]

/-- Concrete value for the C8 witness: date fields at two nesting levels
plus an ordinary string field. -/
def w8Value : SValue :=
  .vobj (.ocons "createdAt" (.vdate 5)
    (.ocons "name" (.vstr "x")
      (.ocons "nested" (.vobj (.ocons "expiresAt" (.vdate 7) .onil)) .onil)))

/-- Witness for C8: a save/load round trip of the concrete value under
the unary codec, and a load of an absent key. -/
theorem localStorage_roundTrip_witness :
    loadFromLocalStorage unaryParse "k" [] none
      (saveToLocalStorage unaryIso "k" w8Value []).2 = some w8Value ∧
    loadFromLocalStorage unaryParse "absent" [] none [] = none :=
  ⟨(localStorage_roundTrip unaryIso unaryParse unaryParse_unaryIso).1 "k" [] w8Value []
      (by decide),
   (localStorage_roundTrip unaryIso unaryParse unaryParse_unaryIso).2 "absent" [] none [] rfl⟩

end IoltaStorage
